import Mathlib

/-!
Verification development for the Servvia symptom-analysis module
(farmer-chat/intent_classification/symptom_classifier.py).

The module is embedded shallowly: the OpenAI client is abstracted as an
explicit provider response value, and `json.loads` is abstracted as an
explicit parse function passed to each operation.  Python strings are
modelled as Lean `String`, whose character-level helpers below mirror the
Python `str` methods the source uses (`strip`, `title`, `replace`,
f-string rendering).  A Python value of non-`str` type passed where a
string is expected is modelled as `Option.none` (the source treats `None`
and every other non-string identically at its single `isinstance` check).
-/

namespace Servvia

/-- Whitespace characters stripped by Python `str.strip()`. -/
def pyIsSpace (c : Char) : Bool :=
  c = ' ' || c = '\t' || c = '\n' || c = '\r' || c = '\x0b' || c = '\x0c'

/-- Drop leading characters satisfying `p`. -/
def dropLeading (p : Char → Bool) : List Char → List Char
  | [] => []
  | c :: rest => if p c then dropLeading p rest else c :: rest

/-- Python `str.strip()`: remove leading and trailing whitespace. -/
def pyStrip (s : String) : String :=
  String.mk (List.reverse (dropLeading pyIsSpace
    (List.reverse (dropLeading pyIsSpace s.data))))

/-- Python `len` on a string (number of characters). -/
def pyLen (s : String) : Nat := s.data.length

/-- Values of the JSON documents exchanged with the model, and of the
`additional_info` metadata dict.  An `obj` value stands for a Python dict
(unique keys, insertion order preserved). -/
inductive Json where
  | str (s : String)
  | num (n : Int)
  | bool (b : Bool)
  | null
  | arr (xs : List Json)
  | obj (kvs : List (String × Json))

/-- Key lookup in a modelled dict. -/
def lookupJ (kvs : List (String × Json)) (k : String) : Option Json :=
  match kvs with
  | [] => none
  | (k2, v) :: rest => if k2 = k then some v else lookupJ rest k

/-- Python `dict.get(key, default)`. -/
def dictGet (kvs : List (String × Json)) (k : String) (d : Json) : Json :=
  (lookupJ kvs k).getD d

/-- The Python exceptions observable from the module: `ValueError`
(raised by input validation) versus every other `Exception` (the module
re-raises all failures as bare `Exception` with a message). -/
inductive PyErr where
  | valueError (msg : String)
  | exc (msg : String)

/-- Structured result from AI symptom analysis (`AnalysisResult`).
Python dataclass fields carry whatever JSON value the response held, so
each field is modelled as `Json`. -/
structure AnalysisResult where
  condition : Json
  severity : Json
  confidence : Json
  analysis : Json
  remedies : Json
  when_to_see_doctor : Json
  precautions : Json
  disclaimer : Json

/-- The canonical default disclaimer sentence from the source. -/
def defaultDisclaimer : String :=
  "This is not a medical diagnosis. Consult a healthcare professional."

/-- The `AnalysisResult(...)` construction shared by both operations:
each field is `result_data.get(key, default)`. -/
def mkAnalysisResult (result_data : List (String × Json)) : AnalysisResult where
  condition := dictGet result_data "condition" (Json.str "Unknown")
  severity := dictGet result_data "severity" (Json.str "moderate")
  confidence := dictGet result_data "confidence" (Json.str "medium")
  analysis := dictGet result_data "analysis" (Json.str "")
  remedies := dictGet result_data "remedies" (Json.arr [])
  when_to_see_doctor := dictGet result_data "when_to_see_doctor" (Json.arr [])
  precautions := dictGet result_data "precautions" (Json.arr [])
  disclaimer := dictGet result_data "disclaimer" (Json.str defaultDisclaimer)

/-- Python type name of a JSON value, for the `AttributeError` message
raised when `.get` is called on a non-dict. -/
def pyTypeName : Json → String
  | Json.str _ => "str"
  | Json.num _ => "int"
  | Json.bool _ => "bool"
  | Json.null => "NoneType"
  | Json.arr _ => "list"
  | Json.obj _ => "dict"

/-- Message of the `AttributeError` Python raises when `result_data` is
not a dict and `.get` is attempted. -/
def attrErrMsg (v : Json) : String :=
  "\x27" ++ pyTypeName v ++ "\x27 object has no attribute \x27get\x27"

/-- Python `str.title()` (ASCII): uppercase a letter that follows a
non-letter, lowercase a letter that follows a letter. -/
def pyTitleGo : Bool → List Char → List Char
  | _, [] => []
  | prevAlpha, c :: rest =>
    if c.isAlpha then
      (if prevAlpha then c.toLower else c.toUpper) :: pyTitleGo true rest
    else
      c :: pyTitleGo false rest

/-- Python `str.title()`. -/
def pyTitle (s : String) : String := String.mk (pyTitleGo false s.data)

/-- Python `key.replace(underscore, space)` for a single-character
pattern. -/
def replaceUnderscores (s : String) : String :=
  String.mk (s.data.map (fun c => if c = '_' then ' ' else c))

mutual

/-- Python `repr` of a JSON value (as rendered inside an f-string for
containers). -/
def pyRepr : Json → String
  | Json.str s => "\x27" ++ s ++ "\x27"
  | Json.num n => toString n
  | Json.bool b => if b then "True" else "False"
  | Json.null => "None"
  | Json.arr xs => "[" ++ pyReprItems xs ++ "]"
  | Json.obj kvs => "\x7b" ++ pyReprEntries kvs ++ "\x7d"

/-- Comma-separated `repr` of list items. -/
def pyReprItems : List Json → String
  | [] => ""
  | [x] => pyRepr x
  | x :: rest => pyRepr x ++ ", " ++ pyReprItems rest

/-- Comma-separated `repr` of dict entries. -/
def pyReprEntries : List (String × Json) → String
  | [] => ""
  | [(k, v)] => "\x27" ++ k ++ "\x27: " ++ pyRepr v
  | (k, v) :: rest => "\x27" ++ k ++ "\x27: " ++ pyRepr v ++ ", " ++ pyReprEntries rest

end

/-- Python `str(value)` / f-string rendering of a JSON value: identical
to `repr` except that a string renders without quotes. -/
def pyStr : Json → String
  | Json.str s => s
  | v => pyRepr v

/-- `ServviaSymptomAnalyzer._build_prompt`: symptom text, then one
rendered line per `additional_info` entry (only when the dict is truthy,
i.e. present and non-empty), then the fixed JSON-format instruction. -/
def build_prompt (symptoms : String) (additional_info : Option (List (String × Json))) : String :=
  let prompt := "Please analyze these symptoms:\n\n" ++ symptoms
  let prompt :=
    match additional_info with
    | none => prompt
    | some kvs =>
      if kvs.isEmpty then prompt
      else
        kvs.foldl
          (fun acc kv =>
            acc ++ "\n- " ++ pyTitle (replaceUnderscores kv.1) ++ ": " ++ pyStr kv.2)
          (prompt ++ "\n\nAdditional Information:")
  prompt ++ "\n\nProvide your analysis in the specified JSON format."

/-- `ServviaSymptomAnalyzer.analyze_symptoms`, with the OpenAI call
abstracted as `provider` (either a transport/provider error message or
the full response text) and `json.loads` abstracted as `loads` (either a
`JSONDecodeError` message or the parsed value).  The returned `Bool`
records whether a completion request was issued. -/
def analyze_symptoms_run (symptoms : Option String)
    (additional_info : Option (List (String × Json)))
    (loads : String → Except String Json)
    (provider : Except String String) :
    Bool × Except PyErr AnalysisResult :=
  match symptoms with
  | none => (false, Except.error (PyErr.valueError "Symptoms must be a non-empty string"))
  | some s =>
    if s = "" then
      (false, Except.error (PyErr.valueError "Symptoms must be a non-empty string"))
    else if pyLen (pyStrip s) < 5 then
      (false, Except.error (PyErr.valueError "Please provide more detailed symptom description"))
    else
      let _user_message := build_prompt s additional_info
      match provider with
      | Except.error m =>
        (true, Except.error (PyErr.exc ("Failed to analyze symptoms: " ++ m)))
      | Except.ok response_text =>
        match loads response_text with
        | Except.error _ =>
          (true, Except.error (PyErr.exc "AI returned invalid response format"))
        | Except.ok v =>
          match v with
          | Json.obj result_data => (true, Except.ok (mkAnalysisResult result_data))
          | _ =>
            (true, Except.error (PyErr.exc ("Failed to analyze symptoms: " ++ attrErrMsg v)))

/-- The chunk sequence delivered by the streaming OpenAI call: each chunk
carries `delta.content` (`none` models a chunk without content, such as
the terminal chunk), and `transport_err` models a transport failure
raised after those chunks were delivered (`none` means the stream
completed normally). -/
structure StreamResp where
  chunks : List (Option String)
  transport_err : Option String

/-- The contents the `for` loop acts on: a chunk is yielded and
accumulated only when its `delta.content` is truthy (present and
non-empty). -/
def truthy_contents (cs : List (Option String)) : List String :=
  cs.filterMap (fun c =>
    match c with
    | none => none
    | some s => if s = "" then none else some s)

/-- Left-to-right string concatenation, as the `collected_content`
accumulator performs. -/
def concatStrings : List String → String
  | [] => ""
  | s :: rest => s ++ concatStrings rest

/-- Concatenation of the raw text deltas of a chunk sequence (a chunk
without content contributes the empty string). -/
def concat_deltas (cs : List (Option String)) : String :=
  concatStrings (cs.map (fun c => c.getD ""))

/-- `ServviaSymptomAnalyzer.analyze_with_streaming`, modelled as the
complete run of the generator: the triple holds (request issued?, list
of yielded chunks in order, final outcome).  The body performs no input
validation; every exception raised inside the `try` block (stream
creation or mid-stream transport failure, `json.loads` failure, or the
`AttributeError` from `.get` on a non-dict) is re-raised as
`Exception("Failed to analyze symptoms: " + message)`. -/
def analyze_with_streaming_run (symptoms : Option String)
    (additional_info : Option (List (String × Json)))
    (loads : String → Except String Json)
    (stream : StreamResp) :
    Bool × List String × Except PyErr AnalysisResult :=
  let _user_message := build_prompt (pyStr (match symptoms with
    | some s => Json.str s
    | none => Json.null)) additional_info
  let yielded := truthy_contents stream.chunks
  let collected_content := concatStrings yielded
  match stream.transport_err with
  | some m => (true, yielded, Except.error (PyErr.exc ("Failed to analyze symptoms: " ++ m)))
  | none =>
    match loads collected_content with
    | Except.error m =>
      (true, yielded, Except.error (PyErr.exc ("Failed to analyze symptoms: " ++ m)))
    | Except.ok v =>
      match v with
      | Json.obj result_data => (true, yielded, Except.ok (mkAnalysisResult result_data))
      | _ =>
        (true, yielded, Except.error (PyErr.exc ("Failed to analyze symptoms: " ++ attrErrMsg v)))

/-- `AnalysisResult.to_dict` (`dataclasses.asdict`): the eight fields in
declaration order. -/
def to_dict (r : AnalysisResult) : List (String × Json) :=
  [("condition", r.condition), ("severity", r.severity), ("confidence", r.confidence),
   ("analysis", r.analysis), ("remedies", r.remedies),
   ("when_to_see_doctor", r.when_to_see_doctor), ("precautions", r.precautions),
   ("disclaimer", r.disclaimer)]

/-- Outcome dictionary of `ServviaAPI.analyze`: either
`status: success` with the result dict, or `status: error` with a
message and a stable code. -/
inductive ApiOutcome where
  | success (data : List (String × Json))
  | failure (error : String) (code : String)

/-- The `additional_info` dict built by `ServviaAPI.analyze`: each of
the five optional arguments is added only when truthy (a `0` age, an
empty string, or an absent argument is skipped). -/
def build_additional_info (age : Option Int)
    (gender duration severity_level medical_history : Option String) :
    List (String × Json) :=
  (match age with
    | some n => if n = 0 then [] else [("age", Json.num n)]
    | none => []) ++
  (match gender with
    | some g => if g = "" then [] else [("gender", Json.str g)]
    | none => []) ++
  (match duration with
    | some d => if d = "" then [] else [("duration", Json.str d)]
    | none => []) ++
  (match severity_level with
    | some v => if v = "" then [] else [("severity_level", Json.str v)]
    | none => []) ++
  (match medical_history with
    | some h => if h = "" then [] else [("medical_history", Json.str h)]
    | none => [])

/-- `additional_info if additional_info else None`: an empty dict is
passed on as `None`. -/
def facade_info_arg (age : Option Int)
    (gender duration severity_level medical_history : Option String) :
    Option (List (String × Json)) :=
  let info := build_additional_info age gender duration severity_level medical_history
  if info.isEmpty then none else some info

/-- `ServviaAPI.analyze`: builds the metadata dict, runs the engine, and
converts the outcome — `ValueError` to `INVALID_INPUT` with the
exception message, every other exception to `ANALYSIS_FAILED` with a
fixed message, success to the result dict. -/
def ServviaAPI_analyze (symptoms : Option String) (age : Option Int)
    (gender duration severity_level medical_history : Option String)
    (loads : String → Except String Json)
    (provider : Except String String) : ApiOutcome :=
  let info_arg := facade_info_arg age gender duration severity_level medical_history
  match (analyze_symptoms_run symptoms info_arg loads provider).2 with
  | Except.ok result => ApiOutcome.success (to_dict result)
  | Except.error (PyErr.valueError m) => ApiOutcome.failure m "INVALID_INPUT"
  | Except.error (PyErr.exc _) =>
    ApiOutcome.failure "Failed to analyze symptoms. Please try again." "ANALYSIS_FAILED"

/-- Extract the successful result of an engine outcome, if any. -/
def resultOf : Except PyErr AnalysisResult → Option AnalysisResult
  | Except.ok r => some r
  | Except.error _ => none

/-- Does `pat` occur as a prefix of `l`? -/
def startsWithL : List Char → List Char → Bool
  | _, [] => true
  | [], _ :: _ => false
  | c :: cs, p :: ps => c = p && startsWithL cs ps

/-- Does `pat` occur as a contiguous sublist of `l`? -/
def containsL (l pat : List Char) : Bool :=
  match l with
  | [] => startsWithL [] pat
  | _ :: rest => startsWithL l pat || containsL rest pat

/-- Python `pat in s` on strings. -/
def strContains (s pat : String) : Bool := containsL s.data pat.data

/-- The outcome mapping §4.3 of the spec promises for the facade. -/
def wrap_outcome : Except PyErr AnalysisResult → ApiOutcome
  | Except.ok r => ApiOutcome.success (to_dict r)
  | Except.error (PyErr.valueError m) => ApiOutcome.failure m "INVALID_INPUT"
  | Except.error (PyErr.exc _) =>
    ApiOutcome.failure "Failed to analyze symptoms. Please try again." "ANALYSIS_FAILED"

/-- The example input of the spec's §8 prompt-rendering property. -/
def demoSymptoms : String :=
  "persistent headache for 2 days, nauseous, sensitive to light"

/-- The example metadata of the spec's §8 prompt-rendering property. -/
def demoMeta : List (String × Json) :=
  [("age", Json.num 30), ("gender", Json.str "female"), ("duration", Json.str "2 days")]

/-! ## Helper lemmas -/

/-- A string whose stripped length is at least 5 is not empty. -/
lemma ne_empty_of_strip_len (s : String) (h5 : 5 ≤ pyLen (pyStrip s)) : ¬ s = "" := by
  intro h
  subst h
  exact absurd h5 (by decide)

/-- On valid input with a successful provider response, `analyze_symptoms`
is determined by the parse of the response text. -/
lemma analyze_run_valid (s : String) (info : Option (List (String × Json)))
    (loads : String → Except String Json) (text : String)
    (h5 : 5 ≤ pyLen (pyStrip s)) :
    analyze_symptoms_run (some s) info loads (Except.ok text) =
      (true,
        match loads text with
        | Except.error _ =>
          Except.error (PyErr.exc "AI returned invalid response format")
        | Except.ok (Json.obj result_data) => Except.ok (mkAnalysisResult result_data)
        | Except.ok v =>
          Except.error (PyErr.exc ("Failed to analyze symptoms: " ++ attrErrMsg v))) := by
  have hne : ¬ s = "" := ne_empty_of_strip_len s h5
  have hlt : ¬ pyLen (pyStrip s) < 5 := Nat.not_lt.mpr h5
  simp only [analyze_symptoms_run, if_neg hne, if_neg hlt]
  cases loads text with
  | error m => rfl
  | ok v => cases v <;> rfl

/-- The complete behavior of a streaming run, by cases on the transport
and the parse of the accumulated text. -/
lemma streaming_run_eq (symptoms : Option String)
    (info : Option (List (String × Json))) (loads : String → Except String Json)
    (cs : List (Option String)) (te : Option String) :
    analyze_with_streaming_run symptoms info loads ⟨cs, te⟩ =
      (true, truthy_contents cs,
        match te with
        | some m => Except.error (PyErr.exc ("Failed to analyze symptoms: " ++ m))
        | none =>
          match loads (concatStrings (truthy_contents cs)) with
          | Except.error m =>
            Except.error (PyErr.exc ("Failed to analyze symptoms: " ++ m))
          | Except.ok (Json.obj result_data) => Except.ok (mkAnalysisResult result_data)
          | Except.ok v =>
            Except.error (PyErr.exc ("Failed to analyze symptoms: " ++ attrErrMsg v))) := by
  cases te with
  | some m => rfl
  | none =>
    simp only [analyze_with_streaming_run]
    cases loads (concatStrings (truthy_contents cs)) with
    | error m => rfl
    | ok v => cases v <;> rfl

/-- Concatenating every raw delta equals concatenating the truthy
contents: absent and empty deltas contribute nothing. -/
lemma concat_deltas_eq_truthy (cs : List (Option String)) :
    concat_deltas cs = concatStrings (truthy_contents cs) := by
  induction cs with
  | nil => rfl
  | cons c rest ih =>
    cases c with
    | none =>
      simp only [concat_deltas, truthy_contents, List.map_cons, List.filterMap_cons,
        concatStrings, Option.getD] at *
      simpa using ih
    | some s =>
      by_cases hs : s = ""
      · subst hs
        simp only [concat_deltas, truthy_contents, List.map_cons, List.filterMap_cons,
          concatStrings, Option.getD] at *
        simpa using ih
      · simp only [concat_deltas, truthy_contents, List.map_cons, List.filterMap_cons,
          concatStrings, Option.getD, if_neg hs] at *
        simp [concatStrings, ih]

/-! ## Claims -/

/-- C1: every symptom input that is not a non-empty string (modelled by
`none` for non-string values, with the empty string and all
whitespace-only or shorter-than-5-trimmed-characters strings covered by
the stripped-length condition) makes `analyze_symptoms` raise a
`ValueError`, and no completion request is issued. -/
theorem C1_invalid_input_rejected (symptoms : Option String)
    (info : Option (List (String × Json))) (loads : String → Except String Json)
    (provider : Except String String)
    (h : ∀ s, symptoms = some s → pyLen (pyStrip s) < 5) :
    (analyze_symptoms_run symptoms info loads provider).1 = false ∧
    ∃ m, (analyze_symptoms_run symptoms info loads provider).2
      = Except.error (PyErr.valueError m) := by
  cases symptoms with
  | none => exact ⟨rfl, "Symptoms must be a non-empty string", rfl⟩
  | some s =>
    by_cases hs : s = ""
    · subst hs
      exact ⟨rfl, "Symptoms must be a non-empty string", rfl⟩
    · have hlen := h s rfl
      refine ⟨?_, "Please provide more detailed symptom description", ?_⟩ <;>
        simp [analyze_symptoms_run, hs, hlen]

/-- Witness for C1 at the concrete too-short input `"ow"`. -/
theorem C1_witness :
    (analyze_symptoms_run (some "ow") none (fun _ => Except.error "x")
      (Except.error "down")).1 = false ∧
    ∃ m, (analyze_symptoms_run (some "ow") none (fun _ => Except.error "x")
      (Except.error "down")).2 = Except.error (PyErr.valueError m) :=
  C1_invalid_input_rejected (some "ow") none (fun _ => Except.error "x")
    (Except.error "down") (fun s hs => by cases hs; decide)

/-- C2 counterexample: for the empty symptom text, `analyze_with_streaming`
performs no validation — it issues the streaming completion request
(first component `true`) and its failure is not a `ValueError`. -/
theorem C2_counterexample :
    (analyze_with_streaming_run (some "") none (fun _ => Except.error "Expecting value")
      ⟨[], none⟩).1 = true ∧
    ∀ m, (analyze_with_streaming_run (some "") none (fun _ => Except.error "Expecting value")
      ⟨[], none⟩).2.2 ≠ Except.error (PyErr.valueError m) := by
  constructor
  · rfl
  · intro m h
    have hrun : (analyze_with_streaming_run (some "") none
        (fun _ => Except.error "Expecting value") ⟨[], none⟩).2.2
        = Except.error (PyErr.exc "Failed to analyze symptoms: Expecting value") := rfl
    rw [hrun] at h
    simp at h

/-- C2 amended: `analyze_with_streaming` enforces no input precondition
at all — for every input (empty, short, or even a non-string symptom
value) it issues the streaming request, and no run ever raises a
`ValueError`. -/
theorem C2_amended_no_validation (symptoms : Option String)
    (info : Option (List (String × Json))) (loads : String → Except String Json)
    (stream : StreamResp) :
    (analyze_with_streaming_run symptoms info loads stream).1 = true ∧
    ∀ m, (analyze_with_streaming_run symptoms info loads stream).2.2
      ≠ Except.error (PyErr.valueError m) := by
  obtain ⟨cs, te⟩ := stream
  rw [streaming_run_eq]
  refine ⟨rfl, ?_⟩
  intro m h
  cases te with
  | some t => simp at h
  | none =>
    cases hl : loads (concatStrings (truthy_contents cs)) with
    | error e => rw [hl] at h; simp at h
    | ok v => rw [hl] at h; cases v <;> simp at h

/-- C3: when the response parses to a JSON object lacking `severity`,
`confidence`, and `disclaimer`, the result carries the defaults
`"moderate"`, `"medium"`, and the canonical disclaimer, and every other
field is the present value copied unchanged, or its default when the key
is missing (`"Unknown"` for condition, `""` for analysis, the empty list
for the three list fields) — so every field is always present. -/
theorem C3_defaults_backfilled (s : String) (info : Option (List (String × Json)))
    (loads : String → Except String Json) (text : String) (kvs : List (String × Json))
    (h5 : 5 ≤ pyLen (pyStrip s))
    (hl : loads text = Except.ok (Json.obj kvs))
    (hsv : lookupJ kvs "severity" = none)
    (hcf : lookupJ kvs "confidence" = none)
    (hdi : lookupJ kvs "disclaimer" = none) :
    ∃ r, (analyze_symptoms_run (some s) info loads (Except.ok text)).2 = Except.ok r ∧
      r.severity = Json.str "moderate" ∧
      r.confidence = Json.str "medium" ∧
      r.disclaimer = Json.str defaultDisclaimer ∧
      r.condition = (lookupJ kvs "condition").getD (Json.str "Unknown") ∧
      r.analysis = (lookupJ kvs "analysis").getD (Json.str "") ∧
      r.remedies = (lookupJ kvs "remedies").getD (Json.arr []) ∧
      r.when_to_see_doctor = (lookupJ kvs "when_to_see_doctor").getD (Json.arr []) ∧
      r.precautions = (lookupJ kvs "precautions").getD (Json.arr []) := by
  refine ⟨mkAnalysisResult kvs, ?_, ?_, ?_, ?_, ?_, ?_, ?_, ?_, ?_⟩
  · rw [analyze_run_valid s info loads text h5, hl]
  all_goals simp [mkAnalysisResult, dictGet, hsv, hcf, hdi]

/-- Witness for C3 at a concrete response holding only `condition`. -/
theorem C3_witness :
    5 ≤ pyLen (pyStrip "headache") ∧
    ∃ r, (analyze_symptoms_run (some "headache") none
        (fun _ => Except.ok (Json.obj [("condition", Json.str "Flu")]))
        (Except.ok "PAYLOAD")).2 = Except.ok r ∧
      r.severity = Json.str "moderate" ∧
      r.confidence = Json.str "medium" ∧
      r.disclaimer = Json.str defaultDisclaimer ∧
      r.condition = (lookupJ [("condition", Json.str "Flu")] "condition").getD (Json.str "Unknown") ∧
      r.analysis = (lookupJ [("condition", Json.str "Flu")] "analysis").getD (Json.str "") ∧
      r.remedies = (lookupJ [("condition", Json.str "Flu")] "remedies").getD (Json.arr []) ∧
      r.when_to_see_doctor
        = (lookupJ [("condition", Json.str "Flu")] "when_to_see_doctor").getD (Json.arr []) ∧
      r.precautions = (lookupJ [("condition", Json.str "Flu")] "precautions").getD (Json.arr []) :=
  ⟨by decide,
    C3_defaults_backfilled "headache" none
      (fun _ => Except.ok (Json.obj [("condition", Json.str "Flu")]))
      "PAYLOAD" [("condition", Json.str "Flu")] (by decide) rfl rfl rfl rfl⟩

/-- C4 counterexample: a response whose `severity` is the unrecognized
value `"catastrophic"` and whose `confidence` is `"certain"` is copied
through unchanged — the result does not hold the defaults `"moderate"` /
`"medium"`, refuting defaulting-on-unrecognized-values. -/
theorem C4_counterexample :
    (analyze_symptoms_run (some "headache") none
      (fun _ => Except.ok (Json.obj
        [("severity", Json.str "catastrophic"), ("confidence", Json.str "certain")]))
      (Except.ok "PAYLOAD")).2
    = Except.ok
        ⟨Json.str "Unknown", Json.str "catastrophic", Json.str "certain", Json.str "",
         Json.arr [], Json.arr [], Json.arr [], Json.str defaultDisclaimer⟩ ∧
    Json.str "catastrophic" ≠ Json.str "moderate" ∧
    Json.str "certain" ≠ Json.str "medium" := by
  refine ⟨rfl, ?_, ?_⟩ <;>
    · intro h
      simp only [Json.str.injEq] at h
      exact absurd h (by decide)

/-- C4 amended: the `"moderate"` / `"medium"` defaults apply only to a
missing `severity` / `confidence` key; a present value — recognized or
not — is copied into the result unchanged. -/
theorem C4_amended_present_values_copied (s : String)
    (info : Option (List (String × Json))) (loads : String → Except String Json)
    (text : String) (kvs : List (String × Json)) (v w : Json)
    (h5 : 5 ≤ pyLen (pyStrip s))
    (hl : loads text = Except.ok (Json.obj kvs))
    (hsv : lookupJ kvs "severity" = some v)
    (hcf : lookupJ kvs "confidence" = some w) :
    ∃ r, (analyze_symptoms_run (some s) info loads (Except.ok text)).2 = Except.ok r ∧
      r.severity = v ∧ r.confidence = w := by
  refine ⟨mkAnalysisResult kvs, ?_, ?_, ?_⟩
  · rw [analyze_run_valid s info loads text h5, hl]
  all_goals simp [mkAnalysisResult, dictGet, hsv, hcf]

/-- Witness for C4 at the unrecognized values `"catastrophic"` /
`"certain"`. -/
theorem C4_witness :
    5 ≤ pyLen (pyStrip "headache") ∧
    ∃ r, (analyze_symptoms_run (some "headache") none
        (fun _ => Except.ok (Json.obj
          [("severity", Json.str "catastrophic"), ("confidence", Json.str "certain")]))
        (Except.ok "PAYLOAD")).2 = Except.ok r ∧
      r.severity = Json.str "catastrophic" ∧ r.confidence = Json.str "certain" :=
  ⟨by decide,
    C4_amended_present_values_copied "headache" none
      (fun _ => Except.ok (Json.obj
        [("severity", Json.str "catastrophic"), ("confidence", Json.str "certain")]))
      "PAYLOAD" [("severity", Json.str "catastrophic"), ("confidence", Json.str "certain")]
      (Json.str "catastrophic") (Json.str "certain") (by decide) rfl rfl rfl⟩

/-- C5: when the response parses to a JSON object holding all eight
schema keys, the result is a field-for-field copy of those eight values;
any other keys in the object are ignored (the object `kvs` is arbitrary
beyond the eight lookups). -/
theorem C5_round_trip (s : String) (info : Option (List (String × Json)))
    (loads : String → Except String Json) (text : String) (kvs : List (String × Json))
    (c sv cf an re wd pc di : Json)
    (h5 : 5 ≤ pyLen (pyStrip s))
    (hl : loads text = Except.ok (Json.obj kvs))
    (h1 : lookupJ kvs "condition" = some c)
    (h2 : lookupJ kvs "severity" = some sv)
    (h3 : lookupJ kvs "confidence" = some cf)
    (h4 : lookupJ kvs "analysis" = some an)
    (h5r : lookupJ kvs "remedies" = some re)
    (h6 : lookupJ kvs "when_to_see_doctor" = some wd)
    (h7 : lookupJ kvs "precautions" = some pc)
    (h8 : lookupJ kvs "disclaimer" = some di) :
    (analyze_symptoms_run (some s) info loads (Except.ok text)).2
      = Except.ok ⟨c, sv, cf, an, re, wd, pc, di⟩ := by
  rw [analyze_run_valid s info loads text h5, hl]
  simp [mkAnalysisResult, dictGet, h1, h2, h3, h4, h5r, h6, h7, h8]

/-- Witness for C5 at a concrete full response carrying an extra ignored
key `"debug"`. -/
theorem C5_witness :
    5 ≤ pyLen (pyStrip "headache") ∧
    (analyze_symptoms_run (some "headache") none
      (fun _ => Except.ok (Json.obj
        [("condition", Json.str "Migraine"), ("severity", Json.str "moderate"),
         ("confidence", Json.str "high"), ("analysis", Json.str "throbbing pain"),
         ("remedies", Json.arr [Json.str "rest"]),
         ("when_to_see_doctor", Json.arr [Json.str "vision loss"]),
         ("precautions", Json.arr [Json.str "avoid light"]),
         ("disclaimer", Json.str "see a doctor"), ("debug", Json.bool true)]))
      (Except.ok "PAYLOAD")).2
    = Except.ok
        ⟨Json.str "Migraine", Json.str "moderate", Json.str "high",
         Json.str "throbbing pain", Json.arr [Json.str "rest"],
         Json.arr [Json.str "vision loss"], Json.arr [Json.str "avoid light"],
         Json.str "see a doctor"⟩ :=
  ⟨by decide,
    C5_round_trip "headache" none
      (fun _ => Except.ok (Json.obj
        [("condition", Json.str "Migraine"), ("severity", Json.str "moderate"),
         ("confidence", Json.str "high"), ("analysis", Json.str "throbbing pain"),
         ("remedies", Json.arr [Json.str "rest"]),
         ("when_to_see_doctor", Json.arr [Json.str "vision loss"]),
         ("precautions", Json.arr [Json.str "avoid light"]),
         ("disclaimer", Json.str "see a doctor"), ("debug", Json.bool true)]))
      "PAYLOAD" _
      (Json.str "Migraine") (Json.str "moderate") (Json.str "high")
      (Json.str "throbbing pain") (Json.arr [Json.str "rest"])
      (Json.arr [Json.str "vision loss"]) (Json.arr [Json.str "avoid light"])
      (Json.str "see a doctor")
      (by decide) rfl rfl rfl rfl rfl rfl rfl rfl rfl⟩

/-- C6: for a response text that is not valid JSON, `analyze_symptoms`
fails with the malformed-response exception (`Exception("AI returned
invalid response format")`) instead of returning a result; and a
streaming run whose accumulated text is not valid JSON still yields
every truthy fragment the provider emitted, in order, and fails only at
finalization with the parse error wrapped into the module's failure
exception. -/
theorem C6_malformed_response (s : String) (info1 : Option (List (String × Json)))
    (loads1 : String → Except String Json) (text m1 : String)
    (symptoms2 : Option String) (info2 : Option (List (String × Json)))
    (loads2 : String → Except String Json) (cs : List (Option String)) (m2 : String)
    (h5 : 5 ≤ pyLen (pyStrip s))
    (hl1 : loads1 text = Except.error m1)
    (hl2 : loads2 (concatStrings (truthy_contents cs)) = Except.error m2) :
    (analyze_symptoms_run (some s) info1 loads1 (Except.ok text)).2
      = Except.error (PyErr.exc "AI returned invalid response format") ∧
    analyze_with_streaming_run symptoms2 info2 loads2 ⟨cs, none⟩
      = (true, truthy_contents cs,
          Except.error (PyErr.exc ("Failed to analyze symptoms: " ++ m2))) := by
  constructor
  · rw [analyze_run_valid s info1 loads1 text h5, hl1]
  · rw [streaming_run_eq, hl2]

/-- Witness for C6 at a provider payload `"not json"` and a stream of
two fragments accumulating to the same invalid text. -/
theorem C6_witness :
    5 ≤ pyLen (pyStrip "headache") ∧
    (fun _ => (Except.error "Expecting value" : Except String Json)) "not json"
      = Except.error "Expecting value" ∧
    (fun _ => (Except.error "Expecting value" : Except String Json))
      (concatStrings (truthy_contents [some "not ", none, some "json"]))
      = Except.error "Expecting value" ∧
    ((analyze_symptoms_run (some "headache") none
        (fun _ => Except.error "Expecting value") (Except.ok "not json")).2
      = Except.error (PyErr.exc "AI returned invalid response format") ∧
    analyze_with_streaming_run (some "headache") none
        (fun _ => Except.error "Expecting value") ⟨[some "not ", none, some "json"], none⟩
      = (true, truthy_contents [some "not ", none, some "json"],
          Except.error (PyErr.exc ("Failed to analyze symptoms: " ++ "Expecting value")))) :=
  ⟨by decide, rfl, rfl,
    C6_malformed_response "headache" none (fun _ => Except.error "Expecting value")
      "not json" "Expecting value" (some "headache") none
      (fun _ => Except.error "Expecting value") [some "not ", none, some "json"]
      "Expecting value" (by decide) rfl rfl⟩

/-- C7 counterexample: for the example metadata, `_build_prompt` applies
`title()` to the key only, never to the value — the built prompt does
not contain `"Gender: Female"` or `"Duration: 2 Days"` (though it does
contain `"Age: 30"`). -/
theorem C7_counterexample :
    strContains (build_prompt demoSymptoms (some demoMeta)) "Age: 30" = true ∧
    strContains (build_prompt demoSymptoms (some demoMeta)) "Gender: Female" = false ∧
    strContains (build_prompt demoSymptoms (some demoMeta)) "Duration: 2 Days" = false := by
  refine ⟨?_, ?_, ?_⟩ <;> decide

/-- C7 amended: each metadata key is rendered in Title Case with
underscores replaced by spaces, but the value is rendered unchanged —
for the example metadata the user prompt contains `"Age: 30"`,
`"Gender: female"` and `"Duration: 2 days"`. -/
theorem C7_prompt_rendering :
    strContains (build_prompt demoSymptoms (some demoMeta)) "Age: 30" = true ∧
    strContains (build_prompt demoSymptoms (some demoMeta)) "Gender: female" = true ∧
    strContains (build_prompt demoSymptoms (some demoMeta)) "Duration: 2 days" = true := by
  refine ⟨?_, ?_, ?_⟩ <;> decide

/-- C8: for a fixed provider response, when the concatenation of the
streamed deltas equals the non-streaming payload, the concatenation of
the chunks yielded by the streaming run equals the payload that
`analyze_symptoms` parses for the same (valid) input, and the two modes
produce the same final `AnalysisResult` (or both produce none). -/
theorem C8_modes_agree (s : String) (info : Option (List (String × Json)))
    (loads : String → Except String Json) (payload : String) (cs : List (Option String))
    (h5 : 5 ≤ pyLen (pyStrip s))
    (hcat : concat_deltas cs = payload) :
    concatStrings ((analyze_with_streaming_run (some s) info loads ⟨cs, none⟩).2.1)
      = payload ∧
    resultOf (analyze_with_streaming_run (some s) info loads ⟨cs, none⟩).2.2
      = resultOf (analyze_symptoms_run (some s) info loads (Except.ok payload)).2 := by
  have hc : concatStrings (truthy_contents cs) = payload := by
    rw [← concat_deltas_eq_truthy, hcat]
  rw [streaming_run_eq, analyze_run_valid s info loads payload h5]
  refine ⟨hc, ?_⟩
  rw [hc]
  cases loads payload with
  | error m => rfl
  | ok v => cases v <;> rfl

/-- Witness for C8 at a two-fragment stream assembling a full JSON
object response. -/
theorem C8_witness :
    5 ≤ pyLen (pyStrip "headache") ∧
    concat_deltas [some "AB", some "CD"] = "ABCD" ∧
    (concatStrings ((analyze_with_streaming_run (some "headache") none
        (fun t => if t = "ABCD" then Except.ok (Json.obj [("condition", Json.str "Flu")])
          else Except.error "Expecting value") ⟨[some "AB", some "CD"], none⟩).2.1)
      = "ABCD" ∧
    resultOf (analyze_with_streaming_run (some "headache") none
        (fun t => if t = "ABCD" then Except.ok (Json.obj [("condition", Json.str "Flu")])
          else Except.error "Expecting value") ⟨[some "AB", some "CD"], none⟩).2.2
      = resultOf (analyze_symptoms_run (some "headache") none
          (fun t => if t = "ABCD" then Except.ok (Json.obj [("condition", Json.str "Flu")])
            else Except.error "Expecting value") (Except.ok "ABCD")).2) :=
  ⟨by decide, rfl,
    C8_modes_agree "headache" none
      (fun t => if t = "ABCD" then Except.ok (Json.obj [("condition", Json.str "Flu")])
        else Except.error "Expecting value")
      "ABCD" [some "AB", some "CD"] (by decide) rfl⟩

/-- C9: `ServviaAPI.analyze` always returns a tagged outcome, never a
raw exception: the outcome is exactly the engine outcome mapped by the
facade rule (`ValueError` message with code `INVALID_INPUT`, every other
engine failure as the fixed message with code `ANALYSIS_FAILED`, success
as the result's eight-field dict), and so every outcome is success or
carries one of the two stable codes. -/
theorem C9_facade_tagged_outcome (symptoms : Option String) (age : Option Int)
    (gender duration severity_level medical_history : Option String)
    (loads : String → Except String Json) (provider : Except String String) :
    ServviaAPI_analyze symptoms age gender duration severity_level medical_history
        loads provider
      = wrap_outcome ((analyze_symptoms_run symptoms
          (facade_info_arg age gender duration severity_level medical_history)
          loads provider).2) ∧
    ((∃ d, ServviaAPI_analyze symptoms age gender duration severity_level medical_history
        loads provider = ApiOutcome.success d) ∨
     (∃ m, ServviaAPI_analyze symptoms age gender duration severity_level medical_history
        loads provider = ApiOutcome.failure m "INVALID_INPUT") ∨
     (∃ m, ServviaAPI_analyze symptoms age gender duration severity_level medical_history
        loads provider = ApiOutcome.failure m "ANALYSIS_FAILED")) := by
  cases ho : (analyze_symptoms_run symptoms
      (facade_info_arg age gender duration severity_level medical_history)
      loads provider).2 with
  | ok r =>
    refine ⟨?_, Or.inl ⟨to_dict r, ?_⟩⟩ <;>
      simp [ServviaAPI_analyze, wrap_outcome, ho]
  | error e =>
    cases e with
    | valueError m =>
      refine ⟨?_, Or.inr (Or.inl ⟨m, ?_⟩)⟩ <;>
        simp [ServviaAPI_analyze, wrap_outcome, ho]
    | exc m =>
      refine ⟨?_, Or.inr (Or.inr
        ⟨"Failed to analyze symptoms. Please try again.", ?_⟩)⟩ <;>
        simp [ServviaAPI_analyze, wrap_outcome, ho]

/-- C10: `ServviaAPI.analyze` silently drops every falsy metadata
argument — an age of `0` or an empty string behaves exactly like an
absent argument; when all five are falsy the dict is empty so the
analyzer is called with `additional_info = None`; and a prompt built
with no metadata is exactly the symptom text between the two fixed
sentences, with no Additional Information section. -/
theorem C10_falsy_metadata_dropped :
    (∀ g d v h, build_additional_info (some 0) g d v h
      = build_additional_info none g d v h) ∧
    (∀ a d v h, build_additional_info a (some "") d v h
      = build_additional_info a none d v h) ∧
    (∀ a g v h, build_additional_info a g (some "") v h
      = build_additional_info a g none v h) ∧
    (∀ a g d h, build_additional_info a g d (some "") h
      = build_additional_info a g d none h) ∧
    (∀ a g d v, build_additional_info a g d v (some "")
      = build_additional_info a g d v none) ∧
    facade_info_arg (some 0) (some "") (some "") (some "") (some "") = none ∧
    (∀ s, build_prompt s none
      = "Please analyze these symptoms:\n\n" ++ s
        ++ "\n\nProvide your analysis in the specified JSON format.") := by
  refine ⟨fun g d v h => rfl, fun a d v h => rfl, fun a g v h => rfl,
    fun a g d h => rfl, fun a g d v => rfl, rfl, fun s => rfl⟩

end Servvia
